import Mathlib

/-
Verification of the haunted orchestration core.

Shallow embedding of:
  - src/haunted/core/workflow.py      (WorkflowEngine.process_issue and its stage handlers)
  - src/haunted/core/claude_wrapper.py (ClaudeCodeWrapper agent operations)
  - src/haunted/daemon/service.py     (HauntedDaemon._process_issue worker step)
  - src/haunted/core/git_manager.py   (GitManager branch / worktree / merge operations)

Conventions of the embedding:
  - Python dictionaries mutated in place become explicit record updates; an
    exception escaping a function carries the record as mutated so far,
    because the Python caller still holds the mutated dict.
  - Calls to the external agent are driven by an oracle list of
    `QueryOutcome` values, one consumed per agent operation.
  - Calls to `self.db.update_issue` are recorded in a `dbWrites` trace
    rather than modelling the database itself; an empty trace means the
    store is untouched.
  - Wall-clock fields (`updated_at`, sleeps, logging, console printing) are
    not modelled: they do not affect control flow or any claim.
-/

namespace Haunted

/-- Issue status enum. Modelled from the spec: the enum itself lives in
`haunted/models/base.py`, which is not among the sources; its members are
the ones used by `workflow.py` and `service.py` and listed in the spec data
model: open, in_progress, blocked, closed. (`open` is a Lean keyword, hence
`open_`.) -/
inductive IssueStatus where
  | open_
  | in_progress
  | blocked
  | closed
  deriving DecidableEq, Repr

/-- Workflow stage enum. Modelled from the spec: defined in
`haunted/models/base.py` (not among the sources); members are the stages
used by `workflow.py`: plan, implement, unit_test, fix_issues,
integration_test, diagnose, done. -/
inductive WorkflowStage where
  | plan
  | implement
  | unit_test
  | fix_issues
  | integration_test
  | diagnose
  | done
  deriving DecidableEq, Repr

/-- Payload returned by one agent operation of `ClaudeCodeWrapper`.
`content` is the extracted result content of a successful query
(claude_wrapper.py lines 222-229); `errorPayload` is the error dictionary
a wrapper operation returns when the underlying query raised
(for example claude_wrapper.py lines 75-79: it returns a dict holding the
message rather than re-raising). -/
inductive AgentPayload where
  | content (s : String)
  | errorPayload (s : String)
  deriving DecidableEq, Repr

/-- Outcome of one low-level agent query (`_execute_claude_query`).
`ok` is a successful response, `err` an ordinary failure (the method
raises `Exception`, claude_wrapper.py lines 231-233).
`rateLimited` is Modelled from the spec: the throttle signal
(`ClaudeRateLimitError`, carrying an optional resume time) is imported and
re-raised by workflow.py but its declaration and the text-pattern
detection that raises it are not among the sources; the spec describes it
as a distinguishable "temporarily unavailable" signal. -/
inductive QueryOutcome where
  | ok (response : String)
  | err (msg : String)
  | rateLimited (resumeAt : Option Nat)
  deriving DecidableEq, Repr

/-- The throttle condition escaping a wrapper operation
(`ClaudeRateLimitError`). -/
inductive WrapperErr where
  | rateLimit (resumeAt : Option Nat)
  deriving DecidableEq, Repr

/-- One agent operation of `ClaudeCodeWrapper` (analyze_and_plan,
implement_solution, generate_tests, fix_test_failures,
run_integration_tests, diagnose_issues all share this shape, differing
only in prompt text and in the error-message label): on success it returns
the extracted content; on an ordinary query failure it catches the
exception and returns an error dictionary labelled like
`"Plan generation failed: ..."` instead of raising (claude_wrapper.py
lines 67-79 and the five analogous bodies). Modelled from the spec: a
throttle signal propagates out of the operation (workflow.py catches
`ClaudeRateLimitError` from these calls, so the missing wrapper variant
must let it escape). -/
def wrapperCall (label : String) (q : QueryOutcome) : Except WrapperErr AgentPayload :=
  match q with
  | .ok r => .ok (.content r)
  | .err m => .ok (.errorPayload (label ++ ": " ++ m))
  | .rateLimited t => .error (.rateLimit t)

/-- Embeds `ClaudeCodeWrapper.analyze_and_plan` (claude_wrapper.py 55-79). -/
def analyze_and_plan : QueryOutcome → Except WrapperErr AgentPayload :=
  wrapperCall ("Plan generation failed")

/-- Embeds `ClaudeCodeWrapper.implement_solution` (claude_wrapper.py 81-107). -/
def implement_solution : QueryOutcome → Except WrapperErr AgentPayload :=
  wrapperCall ("Implementation generation failed")

/-- Embeds `ClaudeCodeWrapper.generate_tests` (claude_wrapper.py 109-132). -/
def generate_tests : QueryOutcome → Except WrapperErr AgentPayload :=
  wrapperCall ("Test generation failed")

/-- Embeds `ClaudeCodeWrapper.fix_test_failures` (claude_wrapper.py 658-681). -/
def fix_test_failures : QueryOutcome → Except WrapperErr AgentPayload :=
  wrapperCall ("Fix generation failed")

/-- Embeds `ClaudeCodeWrapper.run_integration_tests` (claude_wrapper.py 683-708). -/
def run_integration_tests : QueryOutcome → Except WrapperErr AgentPayload :=
  wrapperCall ("Integration testing failed")

/-- Embeds `ClaudeCodeWrapper.diagnose_issues` (claude_wrapper.py 134-162). -/
def diagnose_issues : QueryOutcome → Except WrapperErr AgentPayload :=
  wrapperCall ("Diagnosis failed")

/-- Rendering of a payload into the diagnosis log string (Python
interpolates the object into an f-string; the exact rendering of the error
dictionary is abstracted). -/
def payloadText : AgentPayload → String
  | .content s => s
  | .errorPayload s => "error: " ++ s

/-- The mutable per-issue state threaded through `process_issue`
(the `issue_dict`). `iteration_count` is taken as already present
(workflow.py lines 72-73 initialise a missing key to 0 before the loop, so
a dict without the key behaves like one with the key set to 0). -/
structure IssueState where
  status : IssueStatus
  workflow_stage : WorkflowStage
  iteration_count : Nat
  plan : Option AgentPayload := none
  implementation : Option AgentPayload := none
  tests : Option AgentPayload := none
  fix_log : Option AgentPayload := none
  integration_tests : Option AgentPayload := none
  diagnosis_log : Option String := none
  deriving DecidableEq, Repr

/-- Embeds `WorkflowEngine._plan_stage` (workflow.py 186-209): on success
stores the plan, sets status to in_progress and moves to implement; a
throttle is re-raised. The `except Exception` branch returning DIAGNOSE is
unreachable because `analyze_and_plan` converts ordinary query failures
into a returned error dictionary instead of raising. -/
def plan_stage (issue : IssueState) (q : QueryOutcome) :
    Except WrapperErr (IssueState × WorkflowStage) :=
  match analyze_and_plan q with
  | .error e => .error e
  | .ok p => .ok ({ issue with plan := some p, status := .in_progress }, .implement)

/-- Embeds `WorkflowEngine._implement_stage` (workflow.py 211-233). The
DIAGNOSE branch is unreachable for the same reason as in `plan_stage`. -/
def implement_stage (issue : IssueState) (q : QueryOutcome) :
    Except WrapperErr (IssueState × WorkflowStage) :=
  match implement_solution q with
  | .error e => .error e
  | .ok p => .ok ({ issue with implementation := some p }, .unit_test)

/-- Embeds `WorkflowEngine._unit_test_stage` (workflow.py 235-265):
`test_passed` is hard-coded to True in the source (line 251), so a
successful agent call always moves to integration_test. -/
def unit_test_stage (issue : IssueState) (q : QueryOutcome) :
    Except WrapperErr (IssueState × WorkflowStage) :=
  match generate_tests q with
  | .error e => .error e
  | .ok p =>
    let issue1 := { issue with tests := some p }
    let test_passed := true
    if test_passed then .ok (issue1, .integration_test) else .ok (issue1, .fix_issues)

/-- Embeds `WorkflowEngine._fix_issues_stage` (workflow.py 267-290). -/
def fix_issues_stage (issue : IssueState) (q : QueryOutcome) :
    Except WrapperErr (IssueState × WorkflowStage) :=
  match fix_test_failures q with
  | .error e => .error e
  | .ok p => .ok ({ issue with fix_log := some p }, .unit_test)

/-- Embeds `WorkflowEngine._integration_test_stage` (workflow.py 292-319):
on success sets status to closed and moves to done. -/
def integration_test_stage (issue : IssueState) (q : QueryOutcome) :
    Except WrapperErr (IssueState × WorkflowStage) :=
  match run_integration_tests q with
  | .error e => .error e
  | .ok p => .ok ({ issue with integration_tests := some p, status := .closed }, .done)

/-- Embeds `WorkflowEngine._diagnose_stage` (workflow.py 321-356): appends
the diagnosis to a non-empty existing log (with an iteration header built
from the current `iteration_count`), otherwise starts the log, then
restarts at plan. The `except Exception` branch (status blocked, done) is
unreachable because `diagnose_issues` never raises ordinarily. -/
def diagnose_stage (issue : IssueState) (q : QueryOutcome) :
    Except WrapperErr (IssueState × WorkflowStage) :=
  match diagnose_issues q with
  | .error e => .error e
  | .ok d =>
    let newLog :=
      match issue.diagnosis_log with
      | some s =>
        if s ≠ "" then
          s ++ "\n\n--- Iteration " ++ toString (issue.iteration_count + 1) ++ " ---\n"
            ++ payloadText d
        else payloadText d
      | none => payloadText d
    .ok ({ issue with diagnosis_log := some newLog }, .plan)

/-- Embeds the `stage_handlers` dispatch (workflow.py 37-44, 92-109).
`done` has no handler in the source map (the loop guard makes it
unreachable); it is given an identity result here. -/
def runStage (stage : WorkflowStage) (issue : IssueState) (q : QueryOutcome) :
    Except WrapperErr (IssueState × WorkflowStage) :=
  match stage with
  | .plan => plan_stage issue q
  | .implement => implement_stage issue q
  | .unit_test => unit_test_stage issue q
  | .fix_issues => fix_issues_stage issue q
  | .integration_test => integration_test_stage issue q
  | .diagnose => diagnose_stage issue q
  | .done => .ok (issue, .done)

/-- The next oracle entry for an agent call (an exhausted oracle behaves
like an ordinary query failure). -/
def headOutcome : List QueryOutcome → QueryOutcome
  | [] => .err ("no response")
  | o :: _ => o

/-- Embeds the while loop of `WorkflowEngine.process_issue`
(workflow.py 80-124): while the stage is not done, first break to
blocked/done when `iteration_count` has reached the cap, otherwise run the
current stage handler, store the returned next stage, and increment
`iteration_count` by one (the handlers never modify `iteration_count`, so
the in-place `+= 1` of line 114 equals the entry value plus one).
A throttle escaping a handler propagates, carrying the issue record as it
stood when that stage was entered (the caller holds the in-place mutated
dict). The returned `Nat` counts the stage transitions taken.
`fuel` bounds the remaining loop iterations; every iteration increments
`iteration_count` by one and the loop stops at `maxIter`, so calling with
`fuel` at least `maxIter - iteration_count` never reaches the `0` branch
(the lemmas below always carry that bound). -/
def processLoop (maxIter : Nat) (fuel : Nat) (issue : IssueState)
    (outcomes : List QueryOutcome) :
    Except (WrapperErr × IssueState) (IssueState × Nat) :=
  if issue.workflow_stage = .done then
    .ok (issue, 0)
  else if maxIter ≤ issue.iteration_count then
    .ok ({ issue with status := .blocked, workflow_stage := .done }, 0)
  else
    match fuel with
    | 0 => .ok (issue, 0)
    | fuel' + 1 =>
      match runStage issue.workflow_stage issue (headOutcome outcomes) with
      | .error e => .error (e, issue)
      | .ok (issue1, next_stage) =>
        match processLoop maxIter fuel'
            { issue1 with workflow_stage := next_stage,
                          iteration_count := issue.iteration_count + 1 }
            outcomes.tail with
        | .error es => .error es
        | .ok (final, n) => .ok (final, n + 1)

/-- `WorkflowEngine.max_iterations`, hard-coded to 3 (workflow.py 47). -/
def maxIterations : Nat := 3

deriving instance DecidableEq for Except

/-- Result of one `process_issue` call. `result` is the returned dict or
the escaping throttle (with the dict as mutated so far); `dbWrites` lists
the snapshots passed to `self.db.update_issue` inside `process_issue`
itself; `transitions` instruments the number of stage transitions taken
(zero on the non-loop paths). -/
structure ProcessOutcome where
  result : Except (WrapperErr × IssueState) IssueState
  dbWrites : List IssueState
  transitions : Nat
  deriving DecidableEq, Repr

/-- Embeds `WorkflowEngine.process_issue` (workflow.py 49-184):
if the Claude CLI availability check fails, set status blocked and stage
done and return at once (lines 63-68) - before the already-done
short-circuit of lines 76-78; otherwise run the stage loop. On normal loop
completion the final snapshot is written to the store (lines 127-148). A
throttle escaping the loop is re-raised to the caller with no store write
(lines 152-154). The generic `except Exception` path (lines 155-184) is
unreachable in the embedding: handlers convert ordinary agent failures to
payloads, and every loop stage has a handler. -/
def process_issue (claudeAvailable : Bool) (outcomes : List QueryOutcome)
    (issue : IssueState) : ProcessOutcome :=
  if !claudeAvailable then
    { result := .ok { issue with status := .blocked, workflow_stage := .done },
      dbWrites := [], transitions := 0 }
  else if issue.workflow_stage = .done then
    { result := .ok issue, dbWrites := [], transitions := 0 }
  else
    match processLoop maxIterations maxIterations issue outcomes with
    | .error es => { result := .error es, dbWrites := [], transitions := 0 }
    | .ok (final, n) => { result := .ok final, dbWrites := [final], transitions := n }

/-- Kind of comment a worker appends to an issue. -/
inductive CommentKind where
  | completion
  | failure
  deriving DecidableEq, Repr

/-- Observable effects of one `HauntedDaemon._process_issue` call:
statuses written through `db_manager.update_issue`, comments appended,
whether the issue was put back on the queue, whether any process-wide
rate-limit cooldown was set, whether a merge was attempted, and the
unconditional cleanup steps of the `finally` block. -/
structure WorkerEffects where
  statusWrites : List IssueStatus
  comments : List CommentKind
  requeued : Bool
  cooldownSet : Bool
  mergeAttempted : Bool
  activeRemoved : Bool
  worktreeRemoved : Bool
  deriving DecidableEq, Repr

/-- Embeds the worker step `HauntedDaemon._process_issue`
(service.py 265-419). `issueInStore` is the outcome of the authoritative
`get_issue` reload; `wfOutcome` is what `workflow_engine.process_issue`
produced (its returned dict, or the escaping `ClaudeRateLimitError` -
which, being an ordinary `Exception` subclass, is caught by the generic
`except Exception` handler of lines 389-406: there is no rate-limit branch,
no re-enqueue and no cooldown anywhere in service.py). The `finally` block
(lines 408-418) removes the active-issue entry and force-removes the
worktree whenever the issue was found in the store. -/
def daemon_process_issue (issueInStore : Bool)
    (wfOutcome : Except (WrapperErr × IssueState) IssueState) : WorkerEffects :=
  if !issueInStore then
    { statusWrites := [], comments := [.failure], requeued := false,
      cooldownSet := false, mergeAttempted := false,
      activeRemoved := true, worktreeRemoved := false }
  else
    match wfOutcome with
    | .error _ =>
      { statusWrites := [.in_progress, .blocked], comments := [.failure],
        requeued := false, cooldownSet := false, mergeAttempted := false,
        activeRemoved := true, worktreeRemoved := true }
    | .ok processed =>
      if processed.workflow_stage = .done then
        { statusWrites := [.in_progress, processed.status],
          comments := [.completion], requeued := false, cooldownSet := false,
          mergeAttempted := processed.status == .closed,
          activeRemoved := true, worktreeRemoved := true }
      else
        { statusWrites := [.in_progress, processed.status], comments := [],
          requeued := false, cooldownSet := false, mergeAttempted := false,
          activeRemoved := true, worktreeRemoved := true }

/-- Errors raised by git operations: `gitCommand` is the GitPython
`GitCommandError` (a failing git command), `indexError` is the
`IndexError` raised by `repo.heads[name]` for a missing branch - the
latter is NOT caught by the `except GitCommandError` handlers of
git_manager.py. -/
inductive GitErr where
  | gitCommand
  | indexError
  deriving DecidableEq, Repr

/-- Model of the git repository state as seen through the GitPython calls
git_manager.py makes: the local branches, the currently checked-out
branch, whether the working tree is dirty (including untracked files), the
number of stash entries, the unmerged (conflicted) paths of the index, and
the registered worktrees as (path, branch) pairs. -/
structure GitRepo where
  branches : List String
  current : String
  dirty : Bool
  stashCount : Nat
  conflicted : List String
  worktrees : List (String × String)
  deriving DecidableEq, Repr

/-- Embeds `GitManager.branch_exists` (git_manager.py 67-73). -/
def branch_exists (repo : GitRepo) (branch_name : String) : Bool :=
  repo.branches.contains branch_name

/-- Embeds `GitManager.create_branch` (git_manager.py 75-109): falls back
to the current branch when the base is missing; no-op when the branch
already exists. (Commit graph positions are not modelled, so the chosen
base only matters through the fallback logic.) -/
def create_branch (repo : GitRepo) (branch_name : String) (base_branch : String) :
    GitRepo × String :=
  let _base := if branch_exists repo base_branch then base_branch else repo.current
  if branch_exists repo branch_name then
    (repo, branch_name)
  else
    ({ repo with branches := branch_name :: repo.branches }, branch_name)

/-- Embeds `GitManager.checkout_branch` (git_manager.py 111-167): when
switching to a different branch with a dirty tree, auto-stash first
(`stash push -u`); then `repo.heads[branch_name].checkout()` (IndexError
if the branch is missing, carrying the state as mutated so far); when
`apply_stash` is set and a stash was pushed, re-apply and drop it. -/
def checkout_branch (repo : GitRepo) (branch_name : String) (apply_stash : Bool) :
    Except (GitErr × GitRepo) GitRepo :=
  let needStash : Bool := (repo.current != branch_name) && repo.dirty
  let repo1 :=
    if needStash then { repo with dirty := false, stashCount := repo.stashCount + 1 }
    else repo
  if repo1.branches.contains branch_name then
    let repo2 := { repo1 with current := branch_name }
    if apply_stash && needStash then
      .ok { repo2 with dirty := true, stashCount := repo2.stashCount - 1 }
    else
      .ok repo2
  else
    .error (.indexError, repo1)

/-- Root directory for per-branch worktrees
(`GitManager._worktree_root`, git_manager.py 45). -/
def worktreeRoot : String := ".haunted/worktrees"

/-- The Python call `branch_name.replace("/", "-")` (git_manager.py 178): since
the pattern is the single character "/", the replacement is the
per-character map over the string. -/
def sanitizeBranch (branch_name : String) : String :=
  ⟨branch_name.data.map (fun c => if c = '/' then '-' else c)⟩

/-- Embeds `GitManager.get_worktree_path` (git_manager.py 176-179). -/
def get_worktree_path (branch_name : String) : String :=
  worktreeRoot ++ "/" ++ sanitizeBranch branch_name

/-- Embeds `GitManager._worktree_exists` (git_manager.py 207-212): whether
some registered worktree sits at the given path. -/
def worktree_exists (repo : GitRepo) (path : String) : Bool :=
  repo.worktrees.any (fun wt => wt.1 == path)

/-- Model of the external `git worktree add --checkout <path> <branch>`
command (invoked at git_manager.py 246-248): registers a new worktree at
the path bound to the branch; git refuses (GitCommandError) when the path
is already registered or the branch is already checked out in another
worktree. -/
def gitWorktreeAdd (repo : GitRepo) (path branch_name : String) :
    Except (GitErr × GitRepo) GitRepo :=
  if repo.worktrees.any (fun wt => wt.1 == path || wt.2 == branch_name) then
    .error (.gitCommand, repo)
  else
    .ok { repo with worktrees := (path, branch_name) :: repo.worktrees }

/-- First half of `GitManager.ensure_worktree_for_branch`
(git_manager.py 229-240): create the branch if needed, from the given base
(defaulting to main, falling back to the current branch when the base is
missing). -/
def ensure_branch_step (repo : GitRepo) (branch_name : String)
    (base_branch : Option String) : GitRepo :=
  if !(branch_exists repo branch_name) then
    let base0 := base_branch.getD ("main")
    let base := if branch_exists repo base0 then base0 else repo.current
    (create_branch repo branch_name base).1
  else repo

/-- Embeds `GitManager.ensure_worktree_for_branch` (git_manager.py
214-258): create the branch if absent (`ensure_branch_step`), then add a
worktree at the canonical per-branch path unless one is already registered
there; return that path. A failing worktree add is logged and re-raised. -/
def ensure_worktree_for_branch (repo : GitRepo) (branch_name : String)
    (base_branch : Option String) : Except (GitErr × GitRepo) (GitRepo × String) :=
  let path := get_worktree_path branch_name
  let repo1 := ensure_branch_step repo branch_name base_branch
  if !(worktree_exists repo1 path) then
    match gitWorktreeAdd repo1 path branch_name with
    | .error e => .error e
    | .ok repo2 => .ok (repo2, path)
  else
    .ok (repo1, path)

/-- Outcome of the external `git merge <source> --no-ff` command: either a
clean merge, or a conflict (nonzero exit surfaced as GitCommandError,
leaving the conflicting paths unmerged in the index). -/
inductive MergeOutcome where
  | clean
  | conflict (files : List String)
  deriving DecidableEq, Repr

/-- Model of the external `git merge <source> --no-ff` invocation
(git_manager.py 422): on conflict the command fails and the repository is
left mid-merge with the conflicted paths unmerged. -/
def gitMerge (repo : GitRepo) (_source_branch : String) (outcome : MergeOutcome) :
    Except (GitErr × GitRepo) GitRepo :=
  match outcome with
  | .clean => .ok repo
  | .conflict files => .error (.gitCommand, { repo with conflicted := files })

/-- Embeds `GitManager.merge_branch` (git_manager.py 401-440): checkout
the target without re-applying stashed changes, merge the source with
`--no-ff`; a GitCommandError (in particular a conflict) is re-raised
inside and caught by the outer handler, which returns False leaving the
repository as the failing command left it; on success optionally delete
the source branch and return True. An IndexError from the checkout is not
caught and propagates. -/
def merge_branch (repo : GitRepo) (source_branch target_branch : String)
    (delete_source : Bool) (outcome : MergeOutcome) :
    Except (GitErr × GitRepo) (GitRepo × Bool) :=
  match checkout_branch repo target_branch false with
  | .error (.indexError, r1) => .error (.indexError, r1)
  | .error (.gitCommand, r1) => .ok (r1, false)
  | .ok r1 =>
    match gitMerge r1 source_branch outcome with
    | .error (.gitCommand, r2) => .ok (r2, false)
    | .error (.indexError, r2) => .error (.indexError, r2)
    | .ok r2 =>
      if delete_source && branch_exists r2 source_branch then
        .ok ({ r2 with branches := r2.branches.erase source_branch }, true)
      else
        .ok (r2, true)

/-- Embeds `GitManager.has_conflicts` (git_manager.py 456-462): whether
the index has unmerged paths. -/
def has_conflicts (repo : GitRepo) : Bool :=
  decide (0 < repo.conflicted.length)

/-- The data-model invariant of the spec: status is closed or blocked
exactly when the workflow stage is done. -/
abbrev statusDoneInv (issue : IssueState) : Prop :=
  (issue.status = .closed ∨ issue.status = .blocked) ↔ issue.workflow_stage = .done

/-- Concrete issue for exercising C1: at plan with the iteration cap
already reached, so one advance call terminates immediately. -/
def issueC1 : IssueState :=
  { status := .open_, workflow_stage := .plan, iteration_count := 3 }

/-- The snapshot `process_issue` returns (and writes to the store) for
`issueC1`. -/
def issueC1final : IssueState :=
  { issueC1 with status := .blocked, workflow_stage := .done }

/-- Concrete issue snapshot for exercising the C2 worker run. -/
def issueC2 : IssueState :=
  { status := .in_progress, workflow_stage := .implement, iteration_count := 1 }

/-- Concrete issue for exercising C3: mid-pipeline, below the cap. -/
def issueC3 : IssueState :=
  { status := .in_progress, workflow_stage := .unit_test, iteration_count := 2 }

/-- Concrete issue for exercising C4: entry invariant holds, cap reached. -/
def issueC4 : IssueState :=
  { status := .open_, workflow_stage := .plan, iteration_count := 3 }

/-- The final snapshot of `process_issue` on `issueC4`. -/
def issueC4final : IssueState :=
  { issueC4 with status := .blocked, workflow_stage := .done }

/-- Concrete issue refuting the unconditional cap of C5: it enters advance with
`iteration_count` already above `maxIterations`. -/
def issueC5cap : IssueState :=
  { status := .open_, workflow_stage := .plan, iteration_count := 4 }

/-- The snapshot `process_issue` returns for `issueC5cap`: the entry count
4 survives unchanged, above the cap of 3. -/
def issueC5capFinal : IssueState :=
  { issueC5cap with status := .blocked, workflow_stage := .done }

/-- Concrete issue for the C5 witness: already done, so advance returns it
unchanged with zero transitions. -/
def issueC5w : IssueState :=
  { status := .closed, workflow_stage := .done, iteration_count := 2 }

/-- Concrete issue for exercising C6: at plan, about to receive an
ordinary agent failure. -/
def issueC6 : IssueState :=
  { status := .open_, workflow_stage := .plan, iteration_count := 0 }

/-- Concrete issue for exercising C7: fresh issue at plan. -/
def issueC7 : IssueState :=
  { status := .open_, workflow_stage := .plan, iteration_count := 0 }

/-- Agent oracle for C7: every operation of the happy path succeeds. -/
def outcomesC7 : List QueryOutcome :=
  [.ok ("plan ready"), .ok ("implemented"), .ok ("tests written"),
   .ok ("integration passed")]

/-- The snapshot `process_issue` actually produces for `issueC7` with
`outcomesC7`: blocked at the iteration cap before integration_test runs. -/
def issueC7final : IssueState :=
  { status := .blocked, workflow_stage := .done, iteration_count := 3,
    plan := some (.content ("plan ready")),
    implementation := some (.content ("implemented")),
    tests := some (.content ("tests written")),
    fix_log := none, integration_tests := none, diagnosis_log := none }

/-- Concrete repository for exercising C8: two branches, clean tree. -/
def repoC8 : GitRepo :=
  { branches := ["main", "feature"], current := "main", dirty := false,
    stashCount := 0, conflicted := [], worktrees := [] }

/-- Repository state after the conflicting merge of the C8 witness: checked
out on main, mid-merge with one unmerged path, both branches intact. -/
def repoC8after : GitRepo :=
  { branches := ["main", "feature"], current := "main", dirty := false,
    stashCount := 0, conflicted := ["conflict.txt"], worktrees := [] }

/-- Concrete repository for exercising C9: trunk only, no worktrees. -/
def repoC9 : GitRepo :=
  { branches := ["main"], current := "main", dirty := false,
    stashCount := 0, conflicted := [], worktrees := [] }

/-- Repository state after the first `ensure_worktree_for_branch` call of
the C9 witness. -/
def repoC9after : GitRepo :=
  { branches := ["issue-1", "main"], current := "main", dirty := false,
    stashCount := 0, conflicted := [],
    worktrees := [(".haunted/worktrees/issue-1", "issue-1")] }

/-- A throttled agent call makes every stage handler re-raise at once,
before any field of the issue is touched. -/
theorem runStage_rateLimited (stage : WorkflowStage) (issue : IssueState)
    (t : Option Nat) (h : stage ≠ WorkflowStage.done) :
    runStage stage issue (.rateLimited t) = .error (.rateLimit t) := by
  cases stage <;> simp_all [runStage, plan_stage, implement_stage, unit_test_stage,
    fix_issues_stage, integration_test_stage, diagnose_stage, analyze_and_plan,
    implement_solution, generate_tests, fix_test_failures, run_integration_tests,
    diagnose_issues, wrapperCall]

/-- No stage handler modifies `iteration_count`. -/
theorem runStage_iteration_count (stage : WorkflowStage) (issue issue1 : IssueState)
    (q : QueryOutcome) (ns : WorkflowStage)
    (h : runStage stage issue q = .ok (issue1, ns)) :
    issue1.iteration_count = issue.iteration_count := by
  cases stage <;> cases q <;>
    simp_all [runStage, plan_stage, implement_stage, unit_test_stage,
      fix_issues_stage, integration_test_stage, diagnose_stage, analyze_and_plan,
      implement_solution, generate_tests, fix_test_failures, run_integration_tests,
      diagnose_issues, wrapperCall] <;>
    (try obtain ⟨h1, h2⟩ := h) <;> (try subst h1) <;> (try subst h) <;> simp

/-- The only handler (of a non-done stage) that returns done is
integration_test, which sets status to closed. -/
theorem runStage_done_status (stage : WorkflowStage) (issue issue1 : IssueState)
    (q : QueryOutcome) (hstage : stage ≠ WorkflowStage.done)
    (h : runStage stage issue q = .ok (issue1, WorkflowStage.done)) :
    issue1.status = .closed ∨ issue1.status = .blocked := by
  cases stage <;> cases q <;>
    simp_all [runStage, plan_stage, implement_stage, unit_test_stage,
      fix_issues_stage, integration_test_stage, diagnose_stage, analyze_and_plan,
      implement_solution, generate_tests, fix_test_failures, run_integration_tests,
      diagnose_issues, wrapperCall] <;>
    (try obtain ⟨h1, h2⟩ := h) <;> (try subst h1) <;> (try subst h) <;> simp

/-- Iteration accounting of the stage loop: on normal completion the final
count is the entry count plus the number of transitions taken, and the cap
is respected whenever the entry count respects it. The fuel hypothesis is
the bound `process_issue` always provides. -/
theorem processLoop_count_facts (maxIter : Nat) :
    ∀ (fuel : Nat) (issue : IssueState) (outcomes : List QueryOutcome)
      (final : IssueState) (n : Nat),
      maxIter ≤ issue.iteration_count + fuel →
      processLoop maxIter fuel issue outcomes = .ok (final, n) →
      final.iteration_count = issue.iteration_count + n ∧
        (issue.iteration_count ≤ maxIter → final.iteration_count ≤ maxIter) := by
  intro fuel
  induction fuel with
  | zero =>
    intro issue outcomes final n hfuel h
    rw [processLoop] at h
    split at h
    · simp only [Except.ok.injEq, Prod.mk.injEq] at h
      obtain ⟨h1, h2⟩ := h
      subst h1; omega
    · split at h
      · simp only [Except.ok.injEq, Prod.mk.injEq] at h
        obtain ⟨h1, h2⟩ := h
        subst h1; simp; omega
      · omega
  | succ fuel ih =>
    intro issue outcomes final n hfuel h
    rw [processLoop] at h
    split at h
    · simp only [Except.ok.injEq, Prod.mk.injEq] at h
      obtain ⟨h1, h2⟩ := h
      subst h1; omega
    · split at h
      · simp only [Except.ok.injEq, Prod.mk.injEq] at h
        obtain ⟨h1, h2⟩ := h
        subst h1; simp; omega
      · rename_i hdone hcap
        cases hrs : runStage issue.workflow_stage issue (headOutcome outcomes) with
        | error e => rw [hrs] at h; simp at h
        | ok pr =>
          obtain ⟨issue1, ns⟩ := pr
          rw [hrs] at h
          dsimp only at h
          cases hrec : processLoop maxIter fuel
              { issue1 with workflow_stage := ns,
                            iteration_count := issue.iteration_count + 1 }
              outcomes.tail with
          | error es => rw [hrec] at h; simp at h
          | ok pr2 =>
            obtain ⟨f, m⟩ := pr2
            rw [hrec] at h
            simp only [Except.ok.injEq, Prod.mk.injEq] at h
            obtain ⟨h1, h2⟩ := h
            subst h1
            have hfuel2 : maxIter ≤ (issue.iteration_count + 1) + fuel := by omega
            have hrecf := ih _ outcomes.tail f m hfuel2 hrec
            simp at hrecf
            constructor
            · omega
            · intro hle
              have hstep : issue.iteration_count + 1 ≤ maxIter := by omega
              omega

/-- The stage loop establishes the status/done invariant: whenever it
completes normally, the result satisfies `statusDoneInv` (assuming the
invariant held in case the loop was entered at done, where it returns the
issue unchanged). -/
theorem processLoop_inv (maxIter : Nat) :
    ∀ (fuel : Nat) (issue : IssueState) (outcomes : List QueryOutcome)
      (final : IssueState) (n : Nat),
      maxIter ≤ issue.iteration_count + fuel →
      processLoop maxIter fuel issue outcomes = .ok (final, n) →
      (issue.workflow_stage = .done → statusDoneInv issue) →
      statusDoneInv final := by
  intro fuel
  induction fuel with
  | zero =>
    intro issue outcomes final n hfuel h hentry
    rw [processLoop] at h
    split at h
    · rename_i hdone
      simp only [Except.ok.injEq, Prod.mk.injEq] at h
      obtain ⟨h1, h2⟩ := h
      subst h1
      exact hentry hdone
    · split at h
      · simp only [Except.ok.injEq, Prod.mk.injEq] at h
        obtain ⟨h1, h2⟩ := h
        subst h1
        simp [statusDoneInv]
      · omega
  | succ fuel ih =>
    intro issue outcomes final n hfuel h hentry
    rw [processLoop] at h
    split at h
    · rename_i hdone
      simp only [Except.ok.injEq, Prod.mk.injEq] at h
      obtain ⟨h1, h2⟩ := h
      subst h1
      exact hentry hdone
    · split at h
      · simp only [Except.ok.injEq, Prod.mk.injEq] at h
        obtain ⟨h1, h2⟩ := h
        subst h1
        simp [statusDoneInv]
      · rename_i hdone hcap
        cases hrs : runStage issue.workflow_stage issue (headOutcome outcomes) with
        | error e => rw [hrs] at h; simp at h
        | ok pr =>
          obtain ⟨issue1, ns⟩ := pr
          rw [hrs] at h
          dsimp only at h
          cases hrec : processLoop maxIter fuel
              { issue1 with workflow_stage := ns,
                            iteration_count := issue.iteration_count + 1 }
              outcomes.tail with
          | error es => rw [hrec] at h; simp at h
          | ok pr2 =>
            obtain ⟨f, m⟩ := pr2
            rw [hrec] at h
            simp only [Except.ok.injEq, Prod.mk.injEq] at h
            obtain ⟨h1, h2⟩ := h
            subst h1
            have hfuel2 : maxIter ≤ (issue.iteration_count + 1) + fuel := by omega
            apply ih _ outcomes.tail f m hfuel2 hrec
            intro hns
            have hns' : ns = WorkflowStage.done := by simpa using hns
            subst hns'
            have hst := runStage_done_status issue.workflow_stage issue issue1
              (headOutcome outcomes) hdone hrs
            simp [statusDoneInv]
            exact hst

/-- When the very next agent call is throttled, the loop surfaces the
condition at once, carrying the issue exactly as it entered the stage. -/
theorem processLoop_rateLimited_head (maxIter fuel : Nat) (issue : IssueState)
    (t : Option Nat) (rest : List QueryOutcome)
    (hdone : issue.workflow_stage ≠ WorkflowStage.done)
    (hcap : ¬ maxIter ≤ issue.iteration_count)
    (hfuel : fuel ≠ 0) :
    processLoop maxIter fuel issue (.rateLimited t :: rest)
      = .error (.rateLimit t, issue) := by
  obtain ⟨fuel', rfl⟩ : ∃ k, fuel = k + 1 := ⟨fuel - 1, by omega⟩
  rw [processLoop, if_neg hdone, if_neg hcap]
  rw [show headOutcome (QueryOutcome.rateLimited t :: rest) = .rateLimited t from rfl]
  rw [runStage_rateLimited issue.workflow_stage issue t hdone]

/-- Checking out an existing branch without reapplying the stash succeeds
and changes neither the branch list nor the conflicted paths. -/
theorem checkout_branch_false_ok (repo : GitRepo) (b : String)
    (h : branch_exists repo b = true) :
    ∃ r1, checkout_branch repo b false = .ok r1 ∧
      r1.branches = repo.branches ∧ r1.conflicted = repo.conflicted := by
  have hm : b ∈ repo.branches := by
    simpa [branch_exists] using h
  by_cases hn : ((repo.current != b) && repo.dirty) = true <;>
    simp [checkout_branch, hn, hm]

/-- What a successful `ensure_worktree_for_branch` establishes: the
returned path is the canonical per-branch path, the branch exists, and a
worktree is registered at that path. -/
theorem ensure_branch_step_facts (repo : GitRepo) (b : String) (base : Option String) :
    branch_exists (ensure_branch_step repo b base) b = true ∧
      (ensure_branch_step repo b base).worktrees = repo.worktrees := by
  by_cases hm : b ∈ repo.branches <;>
    simp [ensure_branch_step, branch_exists, create_branch, hm]

theorem ensure_worktree_ok_facts (repo : GitRepo) (b : String) (base : Option String)
    (r : GitRepo) (p : String)
    (h : ensure_worktree_for_branch repo b base = .ok (r, p)) :
    p = get_worktree_path b ∧ branch_exists r b = true ∧
      worktree_exists r (get_worktree_path b) = true := by
  obtain ⟨hbr, hwt⟩ := ensure_branch_step_facts repo b base
  unfold ensure_worktree_for_branch at h
  dsimp only at h
  split at h
  · rename_i hcond
    split at h
    · simp at h
    · rename_i repo2 heq
      simp only [Except.ok.injEq, Prod.mk.injEq] at h
      obtain ⟨h1, h2⟩ := h
      subst h1; subst h2
      unfold gitWorktreeAdd at heq
      split at heq
      · simp at heq
      · simp only [Except.ok.injEq] at heq
        subst heq
        refine ⟨rfl, ?_, ?_⟩
        · simpa [branch_exists] using hbr
        · simp [worktree_exists]
  · rename_i hcond
    simp only [Except.ok.injEq, Prod.mk.injEq] at h
    obtain ⟨h1, h2⟩ := h
    subst h1; subst h2
    refine ⟨rfl, hbr, ?_⟩
    simpa using hcond

/-- C1 counterexample: running advance on a concrete issue that terminates
through the loop performs a store write - `process_issue` itself passes
the final snapshot to `db.update_issue` (workflow.py 127-148), so the
store does not stay as it was. -/
theorem c1_store_write_counterexample :
    (process_issue true [] issueC1).dbWrites = [issueC1final] ∧
      (process_issue true [] issueC1).dbWrites ≠ [] := by
  constructor
  · rfl
  · decide

/-- C1 (amended): `process_issue` itself writes the final snapshot to the
store exactly on the loop-terminal paths; only the agent-unavailable
fast-fail, the already-done short-circuit, and the rate-limit path leave
the store untouched. -/
theorem c1_store_writes_characterized (outcomes : List QueryOutcome)
    (issue : IssueState) :
    (process_issue false outcomes issue).dbWrites = [] ∧
    (issue.workflow_stage = .done → (process_issue true outcomes issue).dbWrites = []) ∧
    (∀ es, (process_issue true outcomes issue).result = .error es →
      (process_issue true outcomes issue).dbWrites = []) ∧
    (∀ final, issue.workflow_stage ≠ .done →
      (process_issue true outcomes issue).result = .ok final →
      (process_issue true outcomes issue).dbWrites = [final]) := by
  refine ⟨by simp [process_issue], ?_, ?_, ?_⟩
  · intro hdone
    simp [process_issue, hdone]
  · intro es hres
    by_cases hdone : issue.workflow_stage = .done
    · simp [process_issue, hdone]
    · rcases hl : processLoop maxIterations maxIterations issue outcomes with es' | ⟨f, m⟩ <;>
        simp [process_issue, hdone, hl] at hres ⊢
  · intro final hdone hres
    rcases hl : processLoop maxIterations maxIterations issue outcomes with es' | ⟨f, m⟩ <;>
      simp [process_issue, hdone, hl] at hres ⊢
    exact hres

/-- C1 witness: instantiating the amended characterization at `issueC1`:
no store write when the agent is unavailable, and exactly the final
snapshot written on the terminal path. -/
theorem c1_store_writes_witness :
    (process_issue false [] issueC1).dbWrites = [] ∧
      (process_issue true [] issueC1).dbWrites = [issueC1final] :=
  ⟨(c1_store_writes_characterized [] issueC1).1,
   (c1_store_writes_characterized [] issueC1).2.2.2 issueC1final (by decide) (by rfl)⟩

/-- C2: when the workflow run surfaces the rate-limit condition, the
worker of service.py runs its generic failure path: it persists
in_progress and then blocked, appends a failure comment, and
unconditionally removes the worktree; it neither re-enqueues the issue nor
sets any cooldown (no such mechanism exists in service.py). This refutes
the claimed rate-limit handling; evidence for the code-bug reading is the
comment at workflow.py 153 announcing a daemon-side global cooldown. -/
theorem c2_rate_limit_runs_failure_path :
    daemon_process_issue true (.error (.rateLimit none, issueC2)) =
      { statusWrites := [.in_progress, .blocked], comments := [.failure],
        requeued := false, cooldownSet := false, mergeAttempted := false,
        activeRemoved := true, worktreeRemoved := true } := rfl

/-- C3: a throttled agent call at any stage makes the stage handler
re-raise with the issue untouched (so `workflow_stage`, `status` and
`iteration_count` are exactly as they were when the stage was entered),
and advance surfaces the condition to the caller - with the unchanged
issue and no store write - instead of returning normally. -/
theorem c3_rate_limit_preserves_issue :
    (∀ (stage : WorkflowStage) (issue : IssueState) (t : Option Nat),
      stage ≠ .done →
      runStage stage issue (.rateLimited t) = .error (.rateLimit t)) ∧
    (∀ (issue : IssueState) (t : Option Nat) (rest : List QueryOutcome),
      issue.workflow_stage ≠ .done →
      issue.iteration_count < maxIterations →
      process_issue true (.rateLimited t :: rest) issue =
        { result := .error (.rateLimit t, issue), dbWrites := [],
          transitions := 0 }) := by
  constructor
  · intro stage issue t hdone
    exact runStage_rateLimited stage issue t hdone
  · intro issue t rest hdone hcap
    have hcap' : ¬ maxIterations ≤ issue.iteration_count := by omega
    have hloop := processLoop_rateLimited_head maxIterations maxIterations issue t
      rest hdone hcap' (by decide)
    simp [process_issue, hdone, hloop]

/-- C3 witness: a throttle (resume in 60) at unit_test on a concrete issue
surfaces unchanged. -/
theorem c3_rate_limit_witness :
    runStage .unit_test issueC3 (.rateLimited (some 60)) =
        .error (.rateLimit (some 60)) ∧
      process_issue true [.rateLimited (some 60)] issueC3 =
        { result := .error (.rateLimit (some 60), issueC3), dbWrites := [],
          transitions := 0 } :=
  ⟨c3_rate_limit_preserves_issue.1 .unit_test issueC3 (some 60) (by decide),
   c3_rate_limit_preserves_issue.2 issueC3 (some 60) [] (by decide) (by decide)⟩

/-- C4: advance preserves the data-model invariant - for any snapshot
satisfying it on entry, the returned snapshot has status closed or blocked
exactly when its stage is done. -/
theorem c4_status_done_invariant (claudeAvailable : Bool)
    (outcomes : List QueryOutcome) (issue final : IssueState)
    (hinv : statusDoneInv issue)
    (h : (process_issue claudeAvailable outcomes issue).result = .ok final) :
    statusDoneInv final := by
  cases claudeAvailable with
  | false =>
    simp [process_issue] at h
    subst h
    simp [statusDoneInv]
  | true =>
    by_cases hdone : issue.workflow_stage = .done
    · simp [process_issue, hdone] at h
      subst h
      exact hinv
    · rcases hl : processLoop maxIterations maxIterations issue outcomes with es | ⟨f, m⟩
      · simp [process_issue, hdone, hl] at h
      · simp [process_issue, hdone, hl] at h
        subst h
        exact processLoop_inv maxIterations maxIterations issue outcomes f m
          (by omega) hl (fun hd => absurd hd hdone)

/-- C4 witness: the invariant holds for the snapshot advance returns on
`issueC4` (which satisfies the invariant on entry). -/
theorem c4_invariant_witness : statusDoneInv issueC4final :=
  c4_status_done_invariant true [] issueC4 issueC4final (by decide) (by rfl)

/-- C5 counterexample: a snapshot entering advance with `iteration_count`
4 is returned with count still 4, strictly above `maxIterations` = 3 - so
the claimed unconditional bound fails for snapshots already over the
cap. -/
theorem c5_iteration_cap_counterexample :
    (process_issue true [] issueC5cap).result = .ok issueC5capFinal ∧
      maxIterations < issueC5capFinal.iteration_count := by
  constructor
  · rfl
  · decide

/-- C5 (amended): for snapshots whose entry `iteration_count` does not
already exceed `maxIterations`, the count after advance is non-decreasing,
grows by exactly the number of stage transitions taken, and never exceeds
`maxIterations`. -/
theorem c5_iteration_accounting (claudeAvailable : Bool)
    (outcomes : List QueryOutcome) (issue final : IssueState)
    (hcap : issue.iteration_count ≤ maxIterations)
    (h : (process_issue claudeAvailable outcomes issue).result = .ok final) :
    issue.iteration_count ≤ final.iteration_count ∧
    final.iteration_count =
      issue.iteration_count +
        (process_issue claudeAvailable outcomes issue).transitions ∧
    final.iteration_count ≤ maxIterations := by
  cases claudeAvailable with
  | false =>
    simp [process_issue] at h ⊢
    subst h
    simpa using hcap
  | true =>
    by_cases hdone : issue.workflow_stage = .done
    · simp [process_issue, hdone] at h ⊢
      subst h
      simpa using hcap
    · rcases hl : processLoop maxIterations maxIterations issue outcomes with es | ⟨f, m⟩
      · simp [process_issue, hdone, hl] at h
      · simp [process_issue, hdone, hl] at h ⊢
        subst h
        have hfacts := processLoop_count_facts maxIterations maxIterations issue
          outcomes f m (by omega) hl
        omega

/-- C5 witness: instantiating the amended accounting at the already-done
snapshot `issueC5w` (count 2, zero transitions, within the cap of 3). -/
theorem c5_iteration_witness :
    issueC5w.iteration_count ≤ issueC5w.iteration_count ∧
    issueC5w.iteration_count =
      issueC5w.iteration_count + (process_issue true [] issueC5w).transitions ∧
    issueC5w.iteration_count ≤ maxIterations :=
  c5_iteration_accounting true [] issueC5w issueC5w (by decide) (by rfl)

/-- C6: an ordinary (non-rate-limit) failure of the plan-stage agent query
does NOT route to diagnose: `analyze_and_plan` catches the error and
returns an error payload, so `_plan_stage` treats it as success, stores
the error dictionary as the plan, sets status in_progress, and advances to
implement - the success successor. -/
theorem c6_agent_error_advances_stage :
    runStage .plan issueC6 (.err ("boom")) =
      .ok ({ issueC6 with
               plan := some (.errorPayload ("Plan generation failed: boom")),
               status := .in_progress },
           .implement) := rfl

/-- C7: on a fresh issue at plan with an available agent and every agent
operation succeeding, advance does NOT reach closed/done/4: the hard-coded
`max_iterations` = 3 (workflow.py 47) is checked before the fourth stage,
so the run is forced to blocked/done with `iteration_count` 3 and the
integration_test stage (which would set closed) never runs. -/
theorem c7_success_run_blocked_at_cap :
    (process_issue true outcomesC7 issueC7).result = .ok issueC7final ∧
      issueC7final.status = .blocked ∧
      issueC7final.iteration_count = maxIterations := by
  refine ⟨rfl, rfl, rfl⟩

/-- C8: merging a conflicting pair of branches (the target existing, the
conflict set nonempty) returns failure (False), leaves the repository
mid-merge with `has_conflicts` true, and does not delete the source
branch (the branch list is unchanged) even though deletion was
requested. -/
theorem c8_merge_conflict_behavior (repo : GitRepo)
    (source_branch target_branch : String) (files : List String)
    (r : GitRepo) (merged : Bool)
    (htgt : branch_exists repo target_branch = true)
    (hfiles : files ≠ [])
    (h : merge_branch repo source_branch target_branch true (.conflict files) =
      .ok (r, merged)) :
    merged = false ∧ has_conflicts r = true ∧ r.branches = repo.branches := by
  obtain ⟨r1, hck, hbr, hcf⟩ := checkout_branch_false_ok repo target_branch htgt
  unfold merge_branch at h
  rw [hck] at h
  simp only [gitMerge] at h
  simp only [Except.ok.injEq, Prod.mk.injEq] at h
  obtain ⟨h1, h2⟩ := h
  subst h1; subst h2
  refine ⟨rfl, ?_, ?_⟩
  · simp [has_conflicts]
    exact List.length_pos.mpr hfiles
  · simpa using hbr

/-- C8 witness: a concrete conflicting merge of feature into main on
`repoC8` fails, leaves one conflicted path, and keeps both branches. -/
theorem c8_merge_conflict_witness :
    false = false ∧ has_conflicts repoC8after = true ∧
      repoC8after.branches = repoC8.branches :=
  c8_merge_conflict_behavior repoC8 ("feature") ("main") (["conflict.txt"])
    repoC8after false (by decide) (by decide) (by rfl)

/-- C9: `ensure_worktree_for_branch` is idempotent - a second call with
the same branch returns the same path and leaves the repository state
(in particular the worktree registrations) exactly as the first call left
it, registering nothing new. -/
theorem c9_ensure_worktree_idempotent (repo r : GitRepo) (b : String)
    (base : Option String) (p : String)
    (h : ensure_worktree_for_branch repo b base = .ok (r, p)) :
    ensure_worktree_for_branch r b base = .ok (r, p) := by
  obtain ⟨hp, hbr, hwt⟩ := ensure_worktree_ok_facts repo b base r p h
  subst hp
  simp [ensure_worktree_for_branch, ensure_branch_step, hbr, hwt]

/-- C9 witness: after a first call created branch issue-1 and its
worktree on `repoC9`, the second call returns the same path and the same
state. -/
theorem c9_ensure_worktree_witness :
    ensure_worktree_for_branch repoC9after ("issue-1") none =
      .ok (repoC9after, (".haunted/worktrees/issue-1")) :=
  c9_ensure_worktree_idempotent repoC9 repoC9after ("issue-1") none
    (".haunted/worktrees/issue-1") (by decide)

/-- C10: when the agent availability check fails, advance returns
blocked/done immediately - before the already-done short-circuit - for
every snapshot and with no store write; in particular a snapshot entering
as closed/done comes back blocked, so closed is not preserved. -/
theorem c10_unavailable_blocks_even_closed (outcomes : List QueryOutcome)
    (issue : IssueState) :
    process_issue false outcomes issue =
      { result := .ok { issue with status := .blocked, workflow_stage := .done },
        dbWrites := [], transitions := 0 } := by
  simp [process_issue]

end Haunted
